import Mathlib

/-!
Shallow embedding of `tobstarr/ts-slack-bot` (`main.go`): a Slack bot that
dispatches `!pods` and `!deploy` chat commands to kubectl and the GitHub API.

External effects (GitHub list-commits, kubectl subprocess results, slack
channel listing, inbound events) are passed in as explicit data; the
definitions below mirror the control flow of the Go source function by
function.  Go's `nil`-able `*string` fields become `Option String`, Go's
slice-out-of-range panic becomes an explicit `panicked` outcome, and a Go
function returning `error` becomes `Except String` / an `Option String`
result field.
-/

namespace TsSlackBot

/-- A commit as returned by the GitHub API (`github.RepositoryCommit`):
the Go field `SHA *string` is `nil`-able, hence `Option String`. -/
structure Commit where
  sha : Option String
deriving DecidableEq, Repr

/-- The outcome of the revision-resolution closure in `deployCmd`
(main.go:160-168): either a resolved value, or a runtime panic from the
out-of-bounds slice `s[0:12]`. -/
inductive ShaRes where
  | panicked
  | val (s : String)
deriving DecidableEq, Repr

/-- The anonymous closure at main.go:160-168: scan the commit list in order,
return `s[0:12]` of the first commit whose `SHA` pointer is non-nil, and `""`
if none is.  Go's `s[0:12]` panics when `len(s) < 12`; the embedding makes
that branch explicit. -/
def resolveSha : List Commit → ShaRes
  | [] => .val ""
  | c :: rest =>
    match c.sha with
    | some s => if 12 ≤ s.length then .val (s.take 12) else .panicked
    | none => resolveSha rest

/-- The `handler` struct (main.go:31-39): static configuration loaded from
the environment at startup. -/
structure Handler where
  slackToken : String
  githubToken : String
  githubOrg : String
  githubRepo : String
  dockerImagePfx : String
  k8sNamespace : String
  k8sDeployment : String
deriving DecidableEq, Repr

/-- The result of a `kubectl ... CombinedOutput()` invocation: combined
output text plus the success indicator (`err == nil`). -/
structure CmdResult where
  output : String
  ok : Bool
deriving DecidableEq, Repr

/-- One kubectl subprocess invocation, recorded with the exact argument
list the source builds. -/
inductive KubectlCall where
  | getPods (args : List String)
  | setImage (args : List String)
  | rolloutStatus (args : List String)
deriving DecidableEq, Repr

/-- The external world a single `deployCmd` invocation observes:
the GitHub `ListCommits` reply (which may itself fail), and the results of
the two kubectl subprocesses (consulted only if actually invoked). -/
structure DeployWorld where
  listCommits : Except String (List Commit)
  setImage : CmdResult
  rollout : CmdResult
deriving Repr

/-- How a `deployCmd` invocation terminates: `ok` for `return nil`,
`err` for a returned Go `error`, `panicked` for the slice-bounds panic. -/
inductive DeployOutcome where
  | ok
  | err (msg : String)
  | panicked
deriving DecidableEq, Repr

/-- Everything observable about one `deployCmd` invocation: the progress
messages sent through the printer `p`, in order; the kubectl calls made,
in order; and how the handler terminated. -/
structure DeployTrace where
  progress : List String
  calls : List KubectlCall
  outcome : DeployOutcome
deriving DecidableEq, Repr

/-- `(*handler).deployCmd` (main.go:148-189).  `githubClientFromENV`
(main.go:191-195) never returns an error, so only the `ListCommits` reply
can fail.  The commit-count message is `fmt.Sprintf("%d commits", len(list))`. -/
def deployCmd (h : Handler) (w : DeployWorld) : DeployTrace :=
  match w.listCommits with
  | .error e => { progress := ["about to deploy"], calls := [], outcome := .err e }
  | .ok list =>
    match resolveSha list with
    | .panicked => { progress := ["about to deploy"], calls := [], outcome := .panicked }
    | .val sha =>
      if sha = "" then
        { progress := ["about to deploy"], calls := [], outcome := .err "no sha found" }
      else
        let image := h.dockerImagePfx ++ ":" ++ sha
        let setImageCall := KubectlCall.setImage
          ["-n", h.k8sNamespace, "set", "image",
           "deployments/" ++ h.k8sDeployment, "*=" ++ image]
        let rolloutCall := KubectlCall.rolloutStatus
          ["-n", h.k8sNamespace, "rollout", "status",
           "deployments/" ++ h.k8sDeployment]
        let pre := ["about to deploy", toString list.length ++ " commits",
                    "deploying image " ++ image]
        if w.setImage.ok then
          if w.rollout.ok then
            { progress := pre ++ [w.setImage.output, w.rollout.output, "finished deployment"],
              calls := [setImageCall, rolloutCall], outcome := .ok }
          else
            { progress := pre ++ [w.setImage.output, "ERROR: " ++ w.rollout.output],
              calls := [setImageCall, rolloutCall], outcome := .ok }
        else
          { progress := pre ++ ["ERROR: " ++ w.setImage.output],
            calls := [setImageCall], outcome := .ok }

/-- Approximation of Go's `%q` verb used at main.go:205: wrap in double
quotes.  (Go additionally escapes metacharacters; the outputs in this
development contain none, and no claim depends on the escaping.) -/
def goQuote (s : String) : String := "\"" ++ s ++ "\""

/-- Everything observable about one `podsCmd` invocation: progress messages
sent through `p`, kubectl calls, lines written to the local log only, and
the returned error (always `none`: the function ends in `return nil`). -/
structure PodsTrace where
  progress : List String
  calls : List KubectlCall
  logs : List String
  retErr : Option String
deriving DecidableEq, Repr

/-- `podsCmd` (main.go:197-210).  `ns` is `ctx.String("namespace")` and
`r` the result of the `kubectl get pods` subprocess. -/
def podsCmd (ns : String) (r : CmdResult) : PodsTrace :=
  let args := ["get", "pods"] ++ (if ns ≠ "" then ["-n", ns] else [])
  if r.ok then
    { progress := ["about to list pods", "```" ++ r.output ++ "```"],
      calls := [.getPods args], logs := [], retErr := none }
  else
    { progress := ["about to list pods"],
      calls := [.getPods args], logs := ["err=" ++ goQuote r.output], retErr := none }

/-- A channel entry from `cl.GetChannels(true)`: identifier plus member
user identifiers. -/
structure Channel where
  id : String
  members : List String
deriving DecidableEq, Repr

/-- The filtering loop at main.go:71-84: the identifiers of the channels
whose member list contains the bot's own user identifier. -/
def memberChannels (userID : String) (list : List Channel) : List String :=
  (list.filter fun c => c.members.contains userID).map Channel.id

/-- The channel-count guard at main.go:86-89: error unless exactly one
membership channel exists; otherwise that channel becomes `channelID`. -/
def startupChannel (userID : String) (list : List Channel) : Except String String :=
  let chans := memberChannels userID list
  if h : chans.length = 1 then .ok (chans.get ⟨0, by omega⟩)
  else .error "must only be in one channel"

/-- What one dispatch of the command framework produces: handler progress
messages, text the framework itself wrote to the captured buffer
(`app.Writer = app.ErrWriter = buf`), the handlers invoked, and whether the
dispatch panicked (the slice panic inside `deployCmd` propagates). -/
structure RouterResult where
  progress : List String
  captured : String
  invoked : List String
  panicked : Bool
deriving DecidableEq, Repr

/-- Modelled from the spec: flag parsing for the `pods` command's declared
`namespace` string flag is done by the cli framework (urfave/cli), which is
an external dependency, not source of this repository.  Per the spec the
remaining tokens are parsed against the declared flags (simple string flags
only); an absent flag yields `""` (Go's zero value from `ctx.String`). -/
def parseNsFlag : List String → String
  | "--namespace" :: v :: _ => v
  | _ :: rest => parseNsFlag rest
  | [] => ""

/-- Dispatch of the cli app built at main.go:113-124.  The command table
(`pods`, `deploy`) and the wiring of writers and the no-op `ExitErrHandler`
are from the source; the framework's own lookup behaviour is modelled from
the spec: the cli framework (urfave/cli) is external, and per the spec an
unknown command makes the framework write usage/error text (here the
parameter `usage`) to the captured buffer without invoking any handler,
while a handler's returned error is swallowed by the no-op `ExitErrHandler`. -/
def appRun (h : Handler) (usage : String) (pw : CmdResult) (dw : DeployWorld)
    (args : List String) : RouterResult :=
  match args with
  | [] => { progress := [], captured := usage, invoked := [], panicked := false }
  | name :: rest =>
    if name = "pods" then
      let t := podsCmd (parseNsFlag rest) pw
      { progress := t.progress, captured := "", invoked := ["pods"], panicked := false }
    else if name = "deploy" then
      let t := deployCmd h dw
      { progress := t.progress, captured := "", invoked := ["deploy"],
        panicked := t.outcome = DeployOutcome.panicked }
    else { progress := [], captured := usage, invoked := [], panicked := false }

/-- An inbound RTM event, as the `switch` at main.go:95 distinguishes them:
`slack.HelloEvent`, `slack.MessageEvent` (author, text, channel), or any
other event type (ignored, logged only). -/
inductive Event where
  | hello
  | message (user text channel : String)
  | other
deriving DecidableEq, Repr

/-- One outbound chat message: `rtm.NewOutgoingMessage(text, channel)`. -/
structure Outbound where
  channel : String
  text : String
deriving DecidableEq, Repr

/-- Everything observable about the processing of one inbound event. -/
structure LoopStep where
  outbound : List Outbound
  invoked : List String
  panicked : Bool
deriving DecidableEq, Repr

/-- `strings.HasPrefix(cc.Text, "!")` (main.go:104), embedded at character
level: a UTF-8 string has the one-byte `"!"` as a byte-string prefix
exactly when its first character is `'!'`. -/
def hasBangMarker (s : String) : Bool :=
  match s.data with
  | c :: _ => c = '!'
  | [] => false

/-- `strings.TrimPrefix(cc.Text, "!")` (main.go:125): remove the one-byte
marker when present, i.e. drop the first character. -/
def trimBang (s : String) : String :=
  if hasBangMarker s then String.mk s.data.tail else s

/-- One iteration of the event loop (main.go:93-136).  `botID` is
`rsp.UserID`, `chanID` the startup `channelID`, `tok` the shell-word
tokenizer (external library `go-shellwords`, passed in as an oracle), and
`usage`, `pw`, `dw` the external data a dispatch may consume. -/
def handleEvent (botID chanID : String) (tok : String → Except String (List String))
    (h : Handler) (usage : String) (pw : CmdResult) (dw : DeployWorld) :
    Event → LoopStep
  | .hello => { outbound := [⟨chanID, "Hi there"⟩], invoked := [], panicked := false }
  | .other => { outbound := [], invoked := [], panicked := false }
  | .message u t ch =>
    if u = botID then { outbound := [], invoked := [], panicked := false }
    else if ¬ hasBangMarker t then { outbound := [], invoked := [], panicked := false }
    else
      match tok (trimBang t) with
      | .error e => { outbound := [⟨ch, "error: " ++ e⟩], invoked := [], panicked := false }
      | .ok args =>
        let r := appRun h usage pw dw args
        { outbound := r.progress.map (fun s => ⟨ch, s⟩) ++
            (if r.panicked then []
             else if 0 < r.captured.length then [⟨ch, "```" ++ r.captured ++ "```"⟩]
             else []),
          invoked := r.invoked, panicked := r.panicked }

/-- The event loop over the feed: strictly in order, one at a time; a panic
inside a dispatch tears the process down, so no later event is processed. -/
def loopEvents (botID chanID : String) (tok : String → Except String (List String))
    (h : Handler) (usage : String) (pw : CmdResult) (dw : DeployWorld) :
    List Event → List LoopStep
  | [] => []
  | e :: rest =>
    let s := handleEvent botID chanID tok h usage pw dw e
    if s.panicked then [s]
    else s :: loopEvents botID chanID tok h usage pw dw rest

/-- The observable outcome of a successful `run`: the immutable
`channelID` resolved at startup and the per-event steps. -/
structure RunTrace where
  activeChannel : String
  steps : List LoopStep
deriving DecidableEq, Repr

/-- `(*handler).run` (main.go:55-138), after a successful `AuthTest`
resolving `botID`: compute the single membership channel (fatal error
otherwise, before any event is consumed), then process the inbound feed. -/
def run (botID : String) (tok : String → Except String (List String))
    (h : Handler) (usage : String) (pw : CmdResult) (dw : DeployWorld)
    (channels : List Channel) (events : List Event) : Except String RunTrace :=
  match startupChannel botID channels with
  | .error e => .error e
  | .ok chanID =>
    .ok { activeChannel := chanID,
          steps := loopEvents botID chanID tok h usage pw dw events }

/-- A concrete configuration used to exercise the definitions on closed
inputs (the docker image name matches the spec's worked example). -/
def sampleH : Handler :=
  ⟨"slack-token", "github-token", "org", "repo", "myimage", "ns", "dep"⟩

/-! ## Theorems -/

/-- No step-failure report can coincide with the final success marker:
`"ERROR: " ++ x` never equals `"finished deployment"`. -/
theorem err_ne_finished (x : String) : "ERROR: " ++ x ≠ "finished deployment" := by
  intro hx
  have hd := congrArg String.data hx
  rw [String.data_append] at hd
  have h0 : ("ERROR: ".data ++ x.data).head? = "finished deployment".data.head? := by rw [hd]
  simp [String.data] at h0

/-- If every commit's identifier pointer is nil, the resolution closure
falls through to `""`. -/
theorem resolveSha_of_all_none (list : List Commit) (hnone : ∀ c ∈ list, c.sha = none) :
    resolveSha list = .val "" := by
  induction list with
  | nil => rfl
  | cons c rest ih =>
    have hc : c.sha = none := hnone c (by simp)
    simp only [resolveSha, hc]
    exact ih fun d hd => hnone d (by simp [hd])

/-- C1, counterexample: on the spec's own worked example
`[{sha:""}, {sha:"abcdef1234567890"}]` the code does not skip the
empty-identifier commit — the slice `s[0:12]` of `""` is out of bounds, so
resolution panics instead of producing `"abcdef123456"`. -/
theorem c1_counterexample :
    resolveSha [⟨some ""⟩, ⟨some "abcdef1234567890"⟩] ≠ ShaRes.val "abcdef123456" ∧
    resolveSha [⟨some ""⟩, ⟨some "abcdef1234567890"⟩] = ShaRes.panicked := by
  constructor
  · decide
  · rfl

/-- C1, amended: revision resolution skips commits whose identifier is
absent (nil), not ones whose identifier is empty; the first present
identifier with at least 12 characters yields its first 12 characters as
the short revision, a shorter one (the empty string included) makes the
12-character slice fail out of bounds; for
`[{sha:nil}, {sha:"abcdef1234567890"}]` the short revision is
`"abcdef123456"`. -/
theorem c1_amended_resolution :
    (∀ rest : List Commit, resolveSha (⟨none⟩ :: rest) = resolveSha rest) ∧
    (∀ (s : String) (rest : List Commit), 12 ≤ s.length →
      resolveSha (⟨some s⟩ :: rest) = ShaRes.val (s.take 12)) ∧
    (∀ (s : String) (rest : List Commit), s.length < 12 →
      resolveSha (⟨some s⟩ :: rest) = ShaRes.panicked) ∧
    resolveSha [⟨none⟩, ⟨some "abcdef1234567890"⟩] = ShaRes.val "abcdef123456" := by
  refine ⟨fun rest => rfl, fun s rest hs => ?_, fun s rest hs => ?_, by decide⟩
  · simp [resolveSha, hs]
  · simp [resolveSha, Nat.not_le.mpr hs]

/-- C1, witness for the amended theorem at a concrete input. -/
theorem c1_witness :
    12 ≤ ("abcdef1234567890" : String).length ∧
    resolveSha [⟨some "abcdef1234567890"⟩] = ShaRes.val (("abcdef1234567890" : String).take 12) :=
  ⟨by decide, c1_amended_resolution.2.1 "abcdef1234567890" [] (by decide)⟩

/-- C2: when set-image fails, the deploy handler emits exactly
`"ERROR: " ++ <captured output>` as its final progress message, never
invokes rollout-status, emits nothing further, and returns success
(`nil`, so no error reaches the router or the event loop). -/
theorem c2_deploy_short_circuit (h : Handler) (w : DeployWorld) (list : List Commit)
    (sha : String) (hl : w.listCommits = .ok list) (hs : resolveSha list = .val sha)
    (hne : sha ≠ "") (hsi : w.setImage.ok = false) :
    (deployCmd h w).progress =
      ["about to deploy", toString list.length ++ " commits",
       "deploying image " ++ (h.dockerImagePfx ++ ":" ++ sha),
       "ERROR: " ++ w.setImage.output] ∧
    (deployCmd h w).calls =
      [KubectlCall.setImage
        ["-n", h.k8sNamespace, "set", "image",
         "deployments/" ++ h.k8sDeployment, "*=" ++ (h.dockerImagePfx ++ ":" ++ sha)]] ∧
    (∀ args, KubectlCall.rolloutStatus args ∉ (deployCmd h w).calls) ∧
    (deployCmd h w).outcome = DeployOutcome.ok := by
  simp only [deployCmd, hl, hs]
  rw [if_neg hne]
  simp [hsi]

/-- C2, witness at a concrete input with a failing set-image call. -/
theorem c2_witness :
    (⟨.ok [⟨some "1234567890ab"⟩], ⟨"si-out", false⟩, ⟨"ro-out", true⟩⟩ :
        DeployWorld).listCommits = .ok [⟨some "1234567890ab"⟩] ∧
    (deployCmd sampleH ⟨.ok [⟨some "1234567890ab"⟩], ⟨"si-out", false⟩, ⟨"ro-out", true⟩⟩).progress =
      ["about to deploy", toString ([Commit.mk (some "1234567890ab")]).length ++ " commits",
       "deploying image " ++ (sampleH.dockerImagePfx ++ ":" ++ "1234567890ab"),
       "ERROR: " ++ "si-out"] :=
  ⟨rfl,
   (c2_deploy_short_circuit sampleH
     ⟨.ok [⟨some "1234567890ab"⟩], ⟨"si-out", false⟩, ⟨"ro-out", true⟩⟩
     [⟨some "1234567890ab"⟩] "1234567890ab" rfl (by decide) (by decide) rfl).1⟩

/-- C3: on the full success path (a non-empty short revision resolved,
both kubectl calls succeeding) the progress messages come in exactly the
order `about to deploy`, commit count, `deploying image <ref>`, set-image
output, rollout output, `finished deployment`; the final message is
`finished deployment` only when both calls succeeded; and with sha
`"1234567890ab"` and image name `"myimage"` the announced reference is
`"myimage:1234567890ab"`. -/
theorem c3_deploy_success_order :
    (∀ (h : Handler) (w : DeployWorld) (list : List Commit) (sha : String),
      w.listCommits = .ok list → resolveSha list = .val sha → sha ≠ "" →
      w.setImage.ok = true → w.rollout.ok = true →
      (deployCmd h w).progress =
        ["about to deploy", toString list.length ++ " commits",
         "deploying image " ++ (h.dockerImagePfx ++ ":" ++ sha),
         w.setImage.output, w.rollout.output, "finished deployment"]) ∧
    (∀ (h : Handler) (w : DeployWorld),
      (deployCmd h w).progress.getLast? = some "finished deployment" →
      w.setImage.ok = true ∧ w.rollout.ok = true) ∧
    (deployCmd sampleH ⟨.ok [⟨some "1234567890ab"⟩], ⟨"si-out", true⟩, ⟨"ro-out", true⟩⟩).progress =
      ["about to deploy", "1 commits", "deploying image myimage:1234567890ab",
       "si-out", "ro-out", "finished deployment"] := by
  refine ⟨fun h w list sha hl hs hne hsi hro => ?_, fun h w hlast => ?_, by decide⟩
  · simp only [deployCmd, hl, hs]
    rw [if_neg hne]
    simp [hsi, hro]
  · unfold deployCmd at hlast
    split at hlast
    · simp at hlast
    · split at hlast
      · simp at hlast
      · split at hlast
        · simp at hlast
        · split at hlast
          · split at hlast
            · rename_i hsi hro
              exact ⟨hsi, hro⟩
            · simp at hlast
              exact absurd hlast (err_ne_finished _)
          · simp at hlast
            exact absurd hlast (err_ne_finished _)

/-- C3, witness at a concrete full-success input. -/
theorem c3_witness :
    (deployCmd sampleH ⟨.ok [⟨some "abcdef1234567890"⟩], ⟨"a", true⟩, ⟨"b", true⟩⟩).progress =
      ["about to deploy", toString ([Commit.mk (some "abcdef1234567890")]).length ++ " commits",
       "deploying image " ++ (sampleH.dockerImagePfx ++ ":" ++ "abcdef123456"),
       "a", "b", "finished deployment"] :=
  c3_deploy_success_order.1 sampleH
    ⟨.ok [⟨some "abcdef1234567890"⟩], ⟨"a", true⟩, ⟨"b", true⟩⟩
    [⟨some "abcdef1234567890"⟩] "abcdef123456" rfl (by decide) (by decide) rfl rfl

/-- C4, counterexample: a fetched list whose only commit has the empty
string as identifier yields no non-empty identifier, yet deploy does not
report `no sha found` — the 12-character slice of `""` panics first. -/
theorem c4_counterexample :
    (∀ c ∈ [Commit.mk (some "")], ∀ s, c.sha = some s → s = "") ∧
    (deployCmd sampleH ⟨.ok [⟨some ""⟩], ⟨"si-out", true⟩, ⟨"ro-out", true⟩⟩).outcome ≠
      DeployOutcome.err "no sha found" ∧
    (deployCmd sampleH ⟨.ok [⟨some ""⟩], ⟨"si-out", true⟩, ⟨"ro-out", true⟩⟩).outcome =
      DeployOutcome.panicked := by
  refine ⟨by decide, by decide, rfl⟩

/-- C4, amended: when no commit in the fetched list has a *present*
(non-nil) identifier — the empty list included — deploy reports
`no sha found`, emits nothing beyond the initial `about to deploy`
message, and performs no kubectl call; a present-but-empty identifier
instead panics on the out-of-bounds slice. -/
theorem c4_no_present_sha (h : Handler) (w : DeployWorld) (list : List Commit)
    (hl : w.listCommits = .ok list) (hnone : ∀ c ∈ list, c.sha = none) :
    (deployCmd h w).progress = ["about to deploy"] ∧
    (deployCmd h w).calls = [] ∧
    (deployCmd h w).outcome = DeployOutcome.err "no sha found" := by
  simp [deployCmd, hl, resolveSha_of_all_none list hnone]

/-- C4, witness: the empty commit list. -/
theorem c4_witness :
    (deployCmd sampleH ⟨.ok [], ⟨"si-out", true⟩, ⟨"ro-out", true⟩⟩).progress =
      ["about to deploy"] ∧
    (deployCmd sampleH ⟨.ok [], ⟨"si-out", true⟩, ⟨"ro-out", true⟩⟩).calls = [] ∧
    (deployCmd sampleH ⟨.ok [], ⟨"si-out", true⟩, ⟨"ro-out", true⟩⟩).outcome =
      DeployOutcome.err "no sha found" :=
  c4_no_present_sha sampleH ⟨.ok [], ⟨"si-out", true⟩, ⟨"ro-out", true⟩⟩ [] rfl
    (by simp)

/-- C9: the revision-resolution closure slices `s[0:12]` without a length
check, so any first present identifier shorter than 12 characters (the
empty string included) hits the out-of-bounds branch; and this branch is
reachable through `deployCmd` — no precondition excludes it. -/
theorem c9_slice_reachable_oob :
    (∀ (s : String) (rest : List Commit), s.length < 12 →
      resolveSha (⟨some s⟩ :: rest) = ShaRes.panicked) ∧
    (deployCmd sampleH ⟨.ok [⟨some "short"⟩], ⟨"si-out", true⟩, ⟨"ro-out", true⟩⟩).outcome =
      DeployOutcome.panicked := by
  refine ⟨fun s rest hs => ?_, rfl⟩
  simp [resolveSha, Nat.not_le.mpr hs]

/-- C9, witness at a concrete short identifier. -/
theorem c9_witness :
    ("abc" : String).length < 12 ∧
    resolveSha [⟨some "abc"⟩] = ShaRes.panicked :=
  ⟨by decide, c9_slice_reachable_oob.1 "abc" [] (by decide)⟩

/-- C5: startup fails with `must only be in one channel` — before any
event is consumed or handler invoked — whenever the number of channels
containing the bot's identity differs from 1, whatever the event feed
holds; with exactly one such channel, that channel is the immutable
active channel of the whole run. -/
theorem c5_single_channel_guard (botID : String)
    (tok : String → Except String (List String)) (h : Handler) (usage : String)
    (pw : CmdResult) (dw : DeployWorld) (channels : List Channel) (events : List Event) :
    ((memberChannels botID channels).length ≠ 1 →
      run botID tok h usage pw dw channels events =
        .error "must only be in one channel") ∧
    (∀ c, memberChannels botID channels = [c] →
      run botID tok h usage pw dw channels events =
        .ok ⟨c, loopEvents botID c tok h usage pw dw events⟩) := by
  constructor
  · intro hne
    simp [run, startupChannel, hne]
  · intro c hc
    simp [run, startupChannel, hc]

/-- C5, witness: an empty channel listing (count 0) and a singleton
listing, each with a non-empty pending event feed. -/
theorem c5_witness :
    (memberChannels "U1" ([] : List Channel)).length ≠ 1 ∧
    run "U1" (fun s => .ok [s]) sampleH "usage" ⟨"pout", true⟩
        ⟨.ok [], ⟨"si", true⟩, ⟨"ro", true⟩⟩ [] [Event.hello] =
      .error "must only be in one channel" ∧
    memberChannels "U1" [⟨"C1", ["U1", "U2"]⟩] = ["C1"] ∧
    run "U1" (fun s => .ok [s]) sampleH "usage" ⟨"pout", true⟩
        ⟨.ok [], ⟨"si", true⟩, ⟨"ro", true⟩⟩ [⟨"C1", ["U1", "U2"]⟩] [Event.hello] =
      .ok ⟨"C1", loopEvents "U1" "C1" (fun s => .ok [s]) sampleH "usage" ⟨"pout", true⟩
        ⟨.ok [], ⟨"si", true⟩, ⟨"ro", true⟩⟩ [Event.hello]⟩ :=
  ⟨by decide,
   (c5_single_channel_guard "U1" (fun s => .ok [s]) sampleH "usage" ⟨"pout", true⟩
     ⟨.ok [], ⟨"si", true⟩, ⟨"ro", true⟩⟩ [] [Event.hello]).1 (by decide),
   by decide,
   (c5_single_channel_guard "U1" (fun s => .ok [s]) sampleH "usage" ⟨"pout", true⟩
     ⟨.ok [], ⟨"si", true⟩, ⟨"ro", true⟩⟩ [⟨"C1", ["U1", "U2"]⟩] [Event.hello]).2 "C1"
     (by decide)⟩

/-- C6: a text message authored by the bot itself, or whose text does not
start with the command marker `!`, produces no outbound message and no
handler invocation, and the loop goes on with the next event. -/
theorem c6_event_filtering (botID chanID u t ch : String)
    (tok : String → Except String (List String)) (h : Handler) (usage : String)
    (pw : CmdResult) (dw : DeployWorld) (es : List Event)
    (hft : u = botID ∨ hasBangMarker t = false) :
    handleEvent botID chanID tok h usage pw dw (.message u t ch) =
      { outbound := [], invoked := [], panicked := false } ∧
    loopEvents botID chanID tok h usage pw dw (.message u t ch :: es) =
      { outbound := [], invoked := [], panicked := false } ::
        loopEvents botID chanID tok h usage pw dw es := by
  have hstep : handleEvent botID chanID tok h usage pw dw (.message u t ch) =
      { outbound := [], invoked := [], panicked := false } := by
    rcases hft with hu | ht
    · simp [handleEvent, hu]
    · simp [handleEvent, ht]
  exact ⟨hstep, by simp [loopEvents, hstep]⟩

/-- C6, witness: a self-authored command message and a non-command
message from another user. -/
theorem c6_witness :
    handleEvent "U1" "C1" (fun s => .ok [s]) sampleH "usage" ⟨"pout", true⟩
        ⟨.ok [], ⟨"si", true⟩, ⟨"ro", true⟩⟩ (.message "U1" "!deploy" "C1") =
      { outbound := [], invoked := [], panicked := false } ∧
    handleEvent "U1" "C1" (fun s => .ok [s]) sampleH "usage" ⟨"pout", true⟩
        ⟨.ok [], ⟨"si", true⟩, ⟨"ro", true⟩⟩ (.message "U2" "hello" "C1") =
      { outbound := [], invoked := [], panicked := false } :=
  ⟨(c6_event_filtering "U1" "C1" "U1" "!deploy" "C1" (fun s => .ok [s]) sampleH "usage"
      ⟨"pout", true⟩ ⟨.ok [], ⟨"si", true⟩, ⟨"ro", true⟩⟩ [] (.inl rfl)).1,
   (c6_event_filtering "U1" "C1" "U2" "hello" "C1" (fun s => .ok [s]) sampleH "usage"
      ⟨"pout", true⟩ ⟨.ok [], ⟨"si", true⟩, ⟨"ro", true⟩⟩ [] (.inr (by decide))).1⟩

/-- C7: a command whose first token is neither `pods` nor `deploy`
invokes no handler and panics nothing; the framework's usage/error text
lands in the captured buffer, and after dispatch the buffer is flushed to
the source channel as exactly one fenced message precisely when it is
non-empty. -/
theorem c7_unknown_command_flush (botID chanID u t ch name : String)
    (rest : List String) (tok : String → Except String (List String)) (h : Handler)
    (usage : String) (pw : CmdResult) (dw : DeployWorld)
    (hu : u ≠ botID) (ht : hasBangMarker t = true)
    (htok : tok (trimBang t) = .ok (name :: rest))
    (hn1 : name ≠ "pods") (hn2 : name ≠ "deploy") :
    appRun h usage pw dw (name :: rest) =
      { progress := [], captured := usage, invoked := [], panicked := false } ∧
    handleEvent botID chanID tok h usage pw dw (.message u t ch) =
      { outbound := if 0 < usage.length then [⟨ch, "```" ++ usage ++ "```"⟩] else [],
        invoked := [], panicked := false } := by
  have happ : appRun h usage pw dw (name :: rest) =
      { progress := [], captured := usage, invoked := [], panicked := false } := by
    simp [appRun, hn1, hn2]
  refine ⟨happ, ?_⟩
  simp [handleEvent, hu, ht, htok, happ]

/-- C7, witness: the unknown command `!wat` with non-empty usage text. -/
theorem c7_witness :
    ("U2" : String) ≠ "U1" ∧ hasBangMarker "!wat" = true ∧
    ((fun s => Except.ok [s] : String → Except String (List String)) (trimBang "!wat")) =
      .ok ["wat"] ∧
    ("wat" : String) ≠ "pods" ∧ ("wat" : String) ≠ "deploy" ∧
    handleEvent "U1" "C1" (fun s => .ok [s]) sampleH "usage" ⟨"pout", true⟩
        ⟨.ok [], ⟨"si", true⟩, ⟨"ro", true⟩⟩ (.message "U2" "!wat" "C9") =
      { outbound := if 0 < ("usage" : String).length
          then [⟨"C9", "```" ++ "usage" ++ "```"⟩] else [],
        invoked := [], panicked := false } :=
  ⟨by decide, by decide, rfl, by decide, by decide,
   (c7_unknown_command_flush "U1" "C1" "U2" "!wat" "C9" "wat" [] (fun s => .ok [s])
     sampleH "usage" ⟨"pout", true⟩ ⟨.ok [], ⟨"si", true⟩, ⟨"ro", true⟩⟩
     (by decide) (by decide) rfl (by decide) (by decide)).2⟩

/-- C8: the pods handler first emits `about to list pods`; on a failing
list-workloads call the captured output goes to the local log only and no
further chat message is produced, on success the raw output is sent as a
fenced block; either way the handler returns `nil`. -/
theorem c8_pods_failure_asymmetry (ns : String) (r : CmdResult) :
    (podsCmd ns r).progress.head? = some "about to list pods" ∧
    (r.ok = false → podsCmd ns r =
      { progress := ["about to list pods"],
        calls := [.getPods (["get", "pods"] ++ if ns ≠ "" then ["-n", ns] else [])],
        logs := ["err=" ++ goQuote r.output], retErr := none }) ∧
    (r.ok = true → podsCmd ns r =
      { progress := ["about to list pods", "```" ++ r.output ++ "```"],
        calls := [.getPods (["get", "pods"] ++ if ns ≠ "" then ["-n", ns] else [])],
        logs := [], retErr := none }) ∧
    (podsCmd ns r).retErr = none := by
  refine ⟨?_, fun hr => ?_, fun hr => ?_, ?_⟩
  · cases hr : r.ok <;> simp [podsCmd, hr]
  · simp [podsCmd, hr]
  · simp [podsCmd, hr]
  · cases hr : r.ok <;> simp [podsCmd, hr]

/-- C8, witness: a failing and a succeeding list-workloads call. -/
theorem c8_witness :
    podsCmd "kube" ⟨"boom", false⟩ =
      { progress := ["about to list pods"],
        calls := [.getPods (["get", "pods"] ++
          if ("kube" : String) ≠ "" then ["-n", "kube"] else [])],
        logs := ["err=" ++ goQuote "boom"], retErr := none } ∧
    podsCmd "" ⟨"pout", true⟩ =
      { progress := ["about to list pods", "```" ++ "pout" ++ "```"],
        calls := [.getPods (["get", "pods"] ++ if ("" : String) ≠ "" then ["-n", ""] else [])],
        logs := [], retErr := none } :=
  ⟨(c8_pods_failure_asymmetry "kube" ⟨"boom", false⟩).2.1 rfl,
   (c8_pods_failure_asymmetry "" ⟨"pout", true⟩).2.2.1 rfl⟩

/-- C10: the single-channel invariant is checked only at startup — a
filtered-in command message is dispatched whatever its source channel,
with every outbound message (progress and buffer flush alike) addressed
to that source channel; only the connection-established greeting targets
the startup active channel. -/
theorem c10_channel_guard_startup_only (botID chanID u t ch : String)
    (tok : String → Except String (List String)) (h : Handler) (usage : String)
    (pw : CmdResult) (dw : DeployWorld) (args : List String)
    (hu : u ≠ botID) (ht : hasBangMarker t = true)
    (htok : tok (trimBang t) = .ok args) :
    (handleEvent botID chanID tok h usage pw dw (.message u t ch)).invoked =
      (appRun h usage pw dw args).invoked ∧
    (∀ o ∈ (handleEvent botID chanID tok h usage pw dw (.message u t ch)).outbound,
      o.channel = ch) ∧
    handleEvent botID chanID tok h usage pw dw Event.hello =
      { outbound := [⟨chanID, "Hi there"⟩], invoked := [], panicked := false } := by
  refine ⟨?_, ?_, rfl⟩
  · simp [handleEvent, hu, ht, htok]
  · intro o ho
    simp only [handleEvent, hu, ht, htok] at ho
    simp at ho
    rcases ho with ⟨s, _, rfl⟩ | ⟨_, _, rfl⟩ <;> rfl

/-- C10, witness: a `!deploy` message arriving from a channel other than
the startup channel is dispatched and answered on its own channel. -/
theorem c10_witness :
    (handleEvent "U1" "C1" (fun s => .ok [s]) sampleH "usage" ⟨"pout", true⟩
        ⟨.ok [], ⟨"si", true⟩, ⟨"ro", true⟩⟩ (.message "U2" "!deploy" "C9")).invoked =
      (appRun sampleH "usage" ⟨"pout", true⟩
        ⟨.ok [], ⟨"si", true⟩, ⟨"ro", true⟩⟩ ["deploy"]).invoked ∧
    (∀ o ∈ (handleEvent "U1" "C1" (fun s => .ok [s]) sampleH "usage" ⟨"pout", true⟩
        ⟨.ok [], ⟨"si", true⟩, ⟨"ro", true⟩⟩ (.message "U2" "!deploy" "C9")).outbound,
      o.channel = "C9") :=
  ⟨(c10_channel_guard_startup_only "U1" "C1" "U2" "!deploy" "C9" (fun s => .ok [s])
      sampleH "usage" ⟨"pout", true⟩ ⟨.ok [], ⟨"si", true⟩, ⟨"ro", true⟩⟩ ["deploy"]
      (by decide) (by decide) rfl).1,
   (c10_channel_guard_startup_only "U1" "C1" "U2" "!deploy" "C9" (fun s => .ok [s])
      sampleH "usage" ⟨"pout", true⟩ ⟨.ok [], ⟨"si", true⟩, ⟨"ro", true⟩⟩ ["deploy"]
      (by decide) (by decide) rfl).2.1⟩

end TsSlackBot
